import Mathlib

/-!
Verification of the media-conversion core of `converter.py`
(classes `Config`, `DependencyManager`, `MediaConverter`).

The Python code is shallowly embedded: every external effect
(`shutil.which`, the WinGet directory scan, `tempfile.mkdtemp`,
`rlottie` loading and per-frame rendering, subprocess spawning,
`shutil.rmtree`) is a field of an explicit environment record, and each
Python function becomes a total Lean function over that environment
that additionally records its observable effects (temporary directory
created, frames written, commands run, cleanup attempted).  A Python
exception escaping a function is modelled as an `Except.error` result;
an exception caught inside the function never surfaces in its result
type.
-/

/-! ### Configuration constants (`class Config`) -/

/-- `Config.RENDER_WIDTH = 512`. -/
def RENDER_WIDTH : Nat := 512

/-- `Config.RENDER_HEIGHT = 512`. -/
def RENDER_HEIGHT : Nat := 512

/-- `Config.TARGET_FPS = 30`. -/
def TARGET_FPS : Nat := 30

/-- `Config.FFMPEG_PRESET = 'slow'`. -/
def FFMPEG_PRESET : String := "slow"

/-- `Config.FFMPEG_CRF = '18'` (kept as a string, as in the source). -/
def FFMPEG_CRF : String := "18"

/-! ### Dependency locator (`DependencyManager.get_ffmpeg_path`) -/

/-- Environment for `get_ffmpeg_path`:
* `whichFfmpeg` — whether `shutil.which('ffmpeg')` returns a truthy path;
* `localAppData` — `os.environ.get('LOCALAPPDATA', '')`;
* `wingetExists` — whether the `LOCALAPPDATA/Microsoft/WinGet/Packages`
  directory exists;
* `rglobFirst` — the outcome of `next(winget_path.rglob('ffmpeg.exe'), None)`:
  `.error ()` if iterating the tree raises, otherwise `.ok` of the first
  match (if any). -/
structure FfmpegEnv where
  whichFfmpeg : Bool
  localAppData : String
  wingetExists : Bool
  rglobFirst : Except Unit (Option String)

/-- Result of the locator together with the observable fact whether the
platform-specific (WinGet) tree was scanned at all. -/
structure LocatorResult where
  path : Option String
  scannedTree : Bool
deriving DecidableEq, Repr

/-- `DependencyManager.get_ffmpeg_path`, translated line by line:
`if shutil.which('ffmpeg'): return 'ffmpeg'`; otherwise, when
`LOCALAPPDATA` is non-empty and the WinGet packages directory exists,
take the first `rglob('ffmpeg.exe')` match inside
`try ... except Exception: pass`; finally `return None`. -/
def get_ffmpeg_path (env : FfmpegEnv) : LocatorResult :=
  if env.whichFfmpeg then ⟨some "ffmpeg", false⟩
  else if env.localAppData ≠ "" then
    if env.wingetExists then
      match env.rglobFirst with
      | .ok (some found) => ⟨some found, true⟩
      | .ok none => ⟨none, true⟩
      | .error _ => ⟨none, true⟩
    else ⟨none, false⟩
  else ⟨none, false⟩

/-! ### Encoder invoker (`MediaConverter._run_ffmpeg`) -/

/-- Outcome of `asyncio.create_subprocess_exec` + `communicate()` for a
given argument vector: either the process completed with some return
code, or the whole `try` block raised (binary missing, permissions,
...). -/
inductive SpawnOutcome where
  | completed (returncode : Int)
  | fault
deriving DecidableEq, Repr

/-- `MediaConverter._run_ffmpeg`: spawn the process; if
`process.returncode != 0` return `False`, else `True`; any exception in
the `try` block is caught and yields `False`. -/
def run_ffmpeg (spawn : List String → SpawnOutcome) (cmd : List String) : Bool :=
  match spawn cmd with
  | .completed rc => if rc != 0 then false else true
  | .fault => false

/-! ### Rasterizer adapter (`MediaConverter.render_tgs`) -/

/-- The data `render_tgs` reads from the loaded animation:
`lottie_animation_get_totalframe()` and
`int(lottie_animation_get_framerate())`. -/
structure TgsAnim where
  total_frames : Nat
  native_fps : Nat
deriving DecidableEq, Repr

/-- Environment for `render_tgs`:
* `available` — whether the optional `rlottie_python` import succeeded;
* `load` — outcome of `LottieAnimation.from_tgs` plus the two metadata
  reads (`.error ()` if any of them raises);
* `saveFaults` — whether `anim.save_frame` raises for a given source
  frame index. -/
structure RlottieEnv where
  available : Bool
  load : Except Unit TgsAnim
  saveFaults : Nat → Bool

/-- Zero-padded decimal of width (at least) 4: Python `'%04d' % n`. -/
def zeroPad4 (n : Nat) : String :=
  let s := toString n
  if s.length < 4 then String.mk (List.replicate (4 - s.length) '0') ++ s else s

/-- The file name `ptrn % k` for `ptrn = output_dir + "/frame_%04d.png"`. -/
def frameFile (dir : String) (k : Nat) : String :=
  dir ++ "/frame_" ++ zeroPad4 k ++ ".png"

/-- Python `range(0, n, 2)`: the multiples of 2 below `n`, in order. -/
def pythonRange2 (n : Nat) : List Nat :=
  (List.range n).filter (fun i => i % 2 == 0)

/-- The rendering loop
`for i in range(0, total_frames, step): anim.save_frame(ptrn % (i // step), frame_num=i, ...)`,
accumulating the `(source_index, file_name)` pairs written so far; a
`save_frame` fault aborts the loop, leaving the files already written
on disk (`.error` carries them). -/
def saveFramesAux (faults : Nat → Bool) (dir : String) :
    List Nat → List (Nat × String) → Except (List (Nat × String)) (List (Nat × String))
  | [], acc => .ok acc.reverse
  | i :: rest, acc =>
    if faults i then .error acc.reverse
    else saveFramesAux faults dir rest ((i, frameFile dir (i / 2)) :: acc)

/-- The rendering loop started with an empty accumulator. -/
def saveFrames (faults : Nat → Bool) (dir : String) (indices : List Nat) :
    Except (List (Nat × String)) (List (Nat × String)) :=
  saveFramesAux faults dir indices []

/-- The body of the `try` block of `render_tgs`: load the animation,
compute `out_fps = native_fps // 2` and the pattern
`os.path.join(output_dir, "frame_%04d.png")`, run the loop.  The second
component lists the frame files written (also when the body raises). -/
def render_tgs_body (env : RlottieEnv) (output_dir : String) :
    Except Unit (String × Nat) × List (Nat × String) :=
  match env.load with
  | .error e => (.error e, [])
  | .ok anim =>
    let out_fps := anim.native_fps / 2
    let ptrn := output_dir ++ "/frame_%04d.png"
    match saveFrames env.saveFaults output_dir (pythonRange2 anim.total_frames) with
    | .ok files => (.ok (ptrn, out_fps), files)
    | .error files => (.error (), files)

/-- What `render_tgs` returns (`Tuple[Optional[str], int]`) together
with the frame files it wrote. -/
structure RenderResult where
  pattern : Option String
  fps : Nat
  files : List (Nat × String)
deriving DecidableEq, Repr

/-- `MediaConverter.render_tgs`: `if not rlottie_python: return None, 0`;
then the `try` body; `except Exception` returns `None, 0` (files
already written remain). -/
def render_tgs (env : RlottieEnv) (output_dir : String) : RenderResult :=
  if env.available then
    match render_tgs_body env output_dir with
    | (.ok (p, fps), files) => ⟨some p, fps, files⟩
    | (.error _, files) => ⟨none, 0, files⟩
  else ⟨none, 0, []⟩

/-! ### Pipeline orchestrators (`MediaConverter.to_gif`, `to_mp4`) -/

/-- The full effect environment of one `to_gif`/`to_mp4` call:
* `ffmpeg` — the dependency-locator environment;
* `mkdtemp` — outcome of `tempfile.mkdtemp()` (`.error ()` if it raises);
* `rlottie` — the rasterizer environment;
* `spawn` — the subprocess behaviour seen by `_run_ffmpeg`;
* `rmtreeSucceeds` — whether `shutil.rmtree(temp_dir, ignore_errors=True)`
  actually deletes the tree (with `ignore_errors=True` it never raises
  either way). -/
structure World where
  ffmpeg : FfmpegEnv
  mkdtemp : Except Unit String
  rlottie : RlottieEnv
  spawn : List String → SpawnOutcome
  rmtreeSucceeds : Bool

/-- Observable outcome of one `to_gif`/`to_mp4` call:
* `result` — the returned boolean, or `.error ()` when an exception
  escapes the call;
* `tempDir` — the temporary directory created by this call, if any;
* `renderInvoked` — whether `render_tgs` was called;
* `cleanupAttempted` — whether the `finally` block reached `rmtree`;
* `tempDirRemoved` — whether the temporary tree was actually deleted;
* `commandsRun` — the argument vectors passed to `_run_ffmpeg`;
* `framesWritten` — the frame files written by the rasterizer. -/
structure ConvOutcome where
  result : Except Unit Bool
  tempDir : Option String
  renderInvoked : Bool
  cleanupAttempted : Bool
  tempDirRemoved : Bool
  commandsRun : List (List String)
  framesWritten : List (Nat × String)
deriving Repr

/-- The `-vf` filter string built in `to_gif` (with
`Config.TARGET_FPS` interpolated). -/
def gif_vf : String :=
  "fps=" ++ toString TARGET_FPS ++
  ",scale=512:512:flags=lanczos," ++
  "pad=912:512:(ow-iw)/2:(oh-ih)/2:black," ++
  "split[s0][s1];[s0]palettegen[p];[s1][p]paletteuse"

/-- The `-vf` filter string built in `to_mp4`. -/
def mp4_vf : String :=
  "scale=512:512:force_original_aspect_ratio=decrease," ++
  "pad=912:512:(ow-iw)/2:(oh-ih)/2:black"

/-- `MediaConverter.to_gif`, translated control-flow point by point:
resolve ffmpeg (`return False` when absent, before anything else); for
`is_tgs` create the temporary directory (an `mkdtemp` exception escapes
— the `try` has only a `finally`, and `temp_dir` is still `None` then,
so the cleanup guard skips `rmtree`), rasterize, `return False` on a
`None` pattern; build the command and run it; the `finally` block
removes the temporary directory when one was created. -/
def to_gif (w : World) (in_path out_path : String) (is_tgs : Bool) : ConvOutcome :=
  match (get_ffmpeg_path w.ffmpeg).path with
  | none => ⟨.ok false, none, false, false, false, [], []⟩
  | some bin_path =>
    if is_tgs then
      match w.mkdtemp with
      | .error _ => ⟨.error (), none, false, false, false, [], []⟩
      | .ok temp_dir =>
        let r := render_tgs w.rlottie temp_dir
        match r.pattern with
        | none => ⟨.ok false, some temp_dir, true, true, w.rmtreeSucceeds, [], r.files⟩
        | some ptrn =>
          let cmd := [bin_path, "-y", "-framerate", toString r.fps, "-i", ptrn,
                      "-vf", gif_vf, "-loop", "0", out_path]
          ⟨.ok (run_ffmpeg w.spawn cmd), some temp_dir, true, true, w.rmtreeSucceeds,
           [cmd], r.files⟩
    else
      let cmd := [bin_path, "-y", "-i", in_path, "-vf", gif_vf, "-loop", "0", out_path]
      ⟨.ok (run_ffmpeg w.spawn cmd), none, false, false, false, [cmd], []⟩

/-- The constant codec block of `to_mp4`:
`['-c:v', 'libx264', '-pix_fmt', 'yuv420p', '-crf', Config.FFMPEG_CRF,
'-preset', Config.FFMPEG_PRESET]`. -/
def mp4_codec_args : List String :=
  ["-c:v", "libx264", "-pix_fmt", "yuv420p", "-crf", FFMPEG_CRF, "-preset", FFMPEG_PRESET]

/-- `MediaConverter.to_mp4`, same structure as `to_gif` but with the
H.264 codec block and the mp4 filter chain. -/
def to_mp4 (w : World) (in_path out_path : String) (is_tgs : Bool) : ConvOutcome :=
  match (get_ffmpeg_path w.ffmpeg).path with
  | none => ⟨.ok false, none, false, false, false, [], []⟩
  | some bin_path =>
    if is_tgs then
      match w.mkdtemp with
      | .error _ => ⟨.error (), none, false, false, false, [], []⟩
      | .ok temp_dir =>
        let r := render_tgs w.rlottie temp_dir
        match r.pattern with
        | none => ⟨.ok false, some temp_dir, true, true, w.rmtreeSucceeds, [], r.files⟩
        | some ptrn =>
          let cmd := [bin_path, "-y", "-framerate", toString r.fps, "-i", ptrn] ++
                     mp4_codec_args ++ ["-vf", mp4_vf, out_path]
          ⟨.ok (run_ffmpeg w.spawn cmd), some temp_dir, true, true, w.rmtreeSucceeds,
           [cmd], r.files⟩
    else
      let cmd := [bin_path, "-y", "-i", in_path] ++ mp4_codec_args ++
                 ["-vf", mp4_vf, out_path]
      ⟨.ok (run_ffmpeg w.spawn cmd), none, false, false, false, [cmd], []⟩

/-! ### Concrete environments used to instantiate the theorems -/

/-- A `save_frame` implementation that never raises. -/
def noFaults : Nat → Bool := fun _ => false

/-- A healthy rasterizer environment: `rlottie` importable, a 5-frame
animation at native rate 61, no rendering faults. -/
def envA : RlottieEnv := ⟨true, .ok ⟨5, 61⟩, noFaults⟩

/-- `rlottie_python` not importable. -/
def envUnavailable : RlottieEnv := ⟨false, .ok ⟨5, 61⟩, noFaults⟩

/-- `LottieAnimation.from_tgs` raises (corrupt container). -/
def envLoadFail : RlottieEnv := ⟨true, .error (), noFaults⟩

/-- `save_frame` raises at source frame index 2. -/
def envSaveFail : RlottieEnv := ⟨true, .ok ⟨5, 61⟩, fun i => i == 2⟩

/-- `ffmpeg` resolvable via `shutil.which`. -/
def ffmpegPresent : FfmpegEnv := ⟨true, "", false, .ok none⟩

/-- `ffmpeg` absent everywhere, no `LOCALAPPDATA`. -/
def ffmpegAbsent : FfmpegEnv := ⟨false, "", false, .ok none⟩

/-- Not on the search path, but found in the WinGet tree. -/
def ffmpegWinget : FfmpegEnv :=
  ⟨false, "C:/Users/u/AppData/Local", true,
   .ok (some "C:/Users/u/AppData/Local/Microsoft/WinGet/Packages/ffmpeg.exe")⟩

/-- Not on the search path; the WinGet tree root does not exist. -/
def ffmpegWingetMissing : FfmpegEnv := ⟨false, "C:/Users/u/AppData/Local", false, .ok none⟩

/-- Not on the search path; scanning the WinGet tree raises. -/
def ffmpegWingetFault : FfmpegEnv := ⟨false, "C:/Users/u/AppData/Local", true, .error ()⟩

/-- Not on the search path; the WinGet tree exists but holds no match. -/
def ffmpegWingetNoMatch : FfmpegEnv := ⟨false, "C:/Users/u/AppData/Local", true, .ok none⟩

/-- A subprocess that always exits 0. -/
def spawnOk : List String → SpawnOutcome := fun _ => .completed 0

/-- A fully healthy world. -/
def wBase : World := ⟨ffmpegPresent, .ok "/tmp/t", envA, spawnOk, true⟩

/-- A world without any ffmpeg binary. -/
def wNoFfmpeg : World := ⟨ffmpegAbsent, .ok "/tmp/t", envA, spawnOk, true⟩

/-- A world where `tempfile.mkdtemp()` raises. -/
def wMkdtempFail : World := ⟨ffmpegPresent, .error (), envA, spawnOk, true⟩

/-! ### Helper lemmas about the rendering loop -/

theorem pythonRange2_succ (n : Nat) :
    pythonRange2 (n + 1) = pythonRange2 n ++ if n % 2 = 0 then [n] else [] := by
  unfold pythonRange2
  rw [List.range_succ, List.filter_append]
  by_cases h : n % 2 = 0 <;> simp [h]

theorem pythonRange2_eq (n : Nat) :
    pythonRange2 n = (List.range ((n + 1) / 2)).map fun k => 2 * k := by
  induction n with
  | zero => rfl
  | succ n ih =>
    rw [pythonRange2_succ, ih]
    by_cases h : n % 2 = 0
    · have h1 : (n + 1 + 1) / 2 = (n + 1) / 2 + 1 := by omega
      have h2 : 2 * ((n + 1) / 2) = n := by omega
      rw [if_pos h, h1, List.range_succ, List.map_append]
      simp [h2]
    · have h1 : (n + 1 + 1) / 2 = (n + 1) / 2 := by omega
      rw [if_neg h, h1, List.append_nil]

theorem saveFramesAux_ok (faults : Nat → Bool) (dir : String) (l : List Nat)
    (acc : List (Nat × String)) (h : ∀ i ∈ l, faults i = false) :
    saveFramesAux faults dir l acc =
      .ok (acc.reverse ++ l.map fun i => (i, frameFile dir (i / 2))) := by
  induction l generalizing acc with
  | nil => simp [saveFramesAux]
  | cons i rest ih =>
    have hi : faults i = false := h i (by simp)
    rw [saveFramesAux, if_neg (by simp [hi]),
      ih _ (fun j hj => h j (List.mem_cons_of_mem _ hj))]
    simp

theorem saveFrames_ok (faults : Nat → Bool) (dir : String) (l : List Nat)
    (h : ∀ i ∈ l, faults i = false) :
    saveFrames faults dir l = .ok (l.map fun i => (i, frameFile dir (i / 2))) := by
  rw [saveFrames, saveFramesAux_ok faults dir l [] h]
  simp

theorem saveFramesAux_error (faults : Nat → Bool) (dir : String) (l : List Nat)
    (acc : List (Nat × String)) (h : ∃ i ∈ l, faults i = true) :
    ∃ fs, saveFramesAux faults dir l acc = .error fs := by
  induction l generalizing acc with
  | nil => simp at h
  | cons i rest ih =>
    cases hfi : faults i with
    | true => exact ⟨acc.reverse, by rw [saveFramesAux, if_pos hfi]⟩
    | false =>
      rcases h with ⟨j, hj, hf⟩
      rcases List.mem_cons.mp hj with rfl | hjr
      · rw [hfi] at hf; exact absurd hf (by simp)
      · rw [saveFramesAux, if_neg (by simp [hfi])]
        exact ih _ ⟨j, hjr, hf⟩

/-! ### Claim theorems -/

/-- C1: for a vector-animation input reporting `total_frames = N` and
`native_frame_rate = F`, a faultless `render_tgs` run renders exactly
`ceil(N / 2)` frames — the frames at source indices `0, 2, 4, … < N`,
written as `frame_0000.png, frame_0001.png, …` (sequential numbering
from 0, zero-padded to 4 digits) — and returns `frame_rate = floor(F / 2)`
together with the pattern `output_dir/frame_%04d.png`; for `N = 0` this
gives 0 frames and still the pattern. -/
theorem render_tgs_frames (env : RlottieEnv) (dir : String) (anim : TgsAnim)
    (hA : env.available = true) (hL : env.load = Except.ok anim)
    (hS : ∀ i, env.saveFaults i = false) :
    (render_tgs env dir).pattern = some (dir ++ "/frame_%04d.png") ∧
    (render_tgs env dir).fps = anim.native_fps / 2 ∧
    (render_tgs env dir).files =
      (List.range ((anim.total_frames + 1) / 2)).map (fun k => (2 * k, frameFile dir k)) ∧
    (render_tgs env dir).files.length = (anim.total_frames + 1) / 2 := by
  have hs := saveFrames_ok env.saveFaults dir (pythonRange2 anim.total_frames)
    (fun i _ => hS i)
  have hmap : (pythonRange2 anim.total_frames).map (fun i => (i, frameFile dir (i / 2))) =
      (List.range ((anim.total_frames + 1) / 2)).map fun k => (2 * k, frameFile dir k) := by
    rw [pythonRange2_eq, List.map_map]
    refine List.map_congr_left fun k _ => ?_
    simp [Nat.mul_div_cancel_left]
  simp only [render_tgs, render_tgs_body, hA, hL, hs, hmap, if_true]
  simp

/-- C1 witness: at a 5-frame animation with native rate 61, the three
frames 0, 2, 4 are rendered as `frame_0000/0001/0002.png` and the
returned rate is `61 // 2 = 30`. -/
theorem render_tgs_frames_witness :
    (render_tgs envA "d").pattern = some "d/frame_%04d.png" ∧
    (render_tgs envA "d").fps = 30 ∧
    (render_tgs envA "d").files =
      [(0, "d/frame_0000.png"), (2, "d/frame_0001.png"), (4, "d/frame_0002.png")] ∧
    (render_tgs envA "d").files.length = 3 := by
  have h := render_tgs_frames envA "d" ⟨5, 61⟩ rfl rfl (fun i => rfl)
  refine ⟨h.1, h.2.1, ?_, h.2.2.2⟩
  rw [h.2.2.1]
  rfl

/-- C2: `_run_ffmpeg` returns `True` exactly when the spawned process
exits with status 0; any non-zero exit yields `False`, and a failure to
launch the process at all is caught and yields `False` rather than an
unhandled exception. -/
theorem run_ffmpeg_true_iff (spawn : List String → SpawnOutcome) (cmd : List String) :
    run_ffmpeg spawn cmd = true ↔ spawn cmd = SpawnOutcome.completed 0 := by
  unfold run_ffmpeg
  cases h : spawn cmd with
  | completed rc =>
    by_cases h0 : rc = 0
    · subst h0; simp
    · simp [h0, bne_iff_ne]
  | fault => simp

/-- C7: `render_tgs` never raises to its caller: with the rasterization
capability absent it returns the absence result `(None, 0)` immediately
(no frames touched, whatever the input holds); a loading failure gives
`(None, 0)` with no frames written; a `save_frame` fault at any kept
source index gives the absence result `(None, 0)`. -/
theorem render_tgs_no_raise (env : RlottieEnv) (dir : String) :
    (env.available = false → render_tgs env dir = ⟨none, 0, []⟩) ∧
    (env.load = Except.error () → render_tgs env dir = ⟨none, 0, []⟩) ∧
    (∀ anim i, env.load = Except.ok anim → i ∈ pythonRange2 anim.total_frames →
      env.saveFaults i = true →
      (render_tgs env dir).pattern = none ∧ (render_tgs env dir).fps = 0) := by
  refine ⟨fun hA => by simp [render_tgs, hA], fun hL => ?_, fun anim i hL hi hf => ?_⟩
  · cases hA : env.available with
    | false => simp [render_tgs, hA]
    | true => simp [render_tgs, render_tgs_body, hA, hL]
  · cases hA : env.available with
    | false => simp [render_tgs, hA]
    | true =>
      obtain ⟨fs, hfs⟩ :=
        saveFramesAux_error env.saveFaults dir (pythonRange2 anim.total_frames) []
          ⟨i, hi, hf⟩
      have hsf : saveFrames env.saveFaults dir (pythonRange2 anim.total_frames) =
          .error fs := hfs
      simp [render_tgs, render_tgs_body, hA, hL, hsf]

/-- C7 witness: the three failure modes at concrete environments —
capability absent, corrupt container, and a rendering fault at source
frame 2 of a 5-frame animation. -/
theorem render_tgs_no_raise_witness :
    render_tgs envUnavailable "d" = ⟨none, 0, []⟩ ∧
    render_tgs envLoadFail "d" = ⟨none, 0, []⟩ ∧
    (render_tgs envSaveFail "d").pattern = none ∧
    (render_tgs envSaveFail "d").fps = 0 := by
  refine ⟨(render_tgs_no_raise envUnavailable "d").1 rfl,
    (render_tgs_no_raise envLoadFail "d").2.1 rfl, ?_, ?_⟩
  · exact ((render_tgs_no_raise envSaveFail "d").2.2 ⟨5, 61⟩ 2 rfl (by decide) rfl).1
  · exact ((render_tgs_no_raise envSaveFail "d").2.2 ⟨5, 61⟩ 2 rfl (by decide) rfl).2

/-- C5: `get_ffmpeg_path` returns the bare identifier `'ffmpeg'` when
the binary is on the standard executable search path, without scanning
the WinGet tree; when it is absent from the search path but the WinGet
tree exists and holds a match, it returns the first match; when absent
from both — no `LOCALAPPDATA`, tree root missing, no match, or a scan
fault (unreadable tree) — it returns `none` instead of raising. -/
theorem get_ffmpeg_path_spec (env : FfmpegEnv) :
    (env.whichFfmpeg = true → get_ffmpeg_path env = ⟨some "ffmpeg", false⟩) ∧
    (∀ p, env.whichFfmpeg = false → env.localAppData ≠ "" → env.wingetExists = true →
      env.rglobFirst = Except.ok (some p) → get_ffmpeg_path env = ⟨some p, true⟩) ∧
    (env.whichFfmpeg = false →
      (env.localAppData = "" → (get_ffmpeg_path env).path = none) ∧
      (env.wingetExists = false → (get_ffmpeg_path env).path = none) ∧
      (env.rglobFirst = Except.ok none → (get_ffmpeg_path env).path = none) ∧
      (env.rglobFirst = Except.error () → (get_ffmpeg_path env).path = none)) := by
  refine ⟨fun h => by simp [get_ffmpeg_path, h],
    fun p h1 h2 h3 h4 => by simp [get_ffmpeg_path, h1, h2, h3, h4], fun h1 => ?_⟩
  refine ⟨fun h2 => by simp [get_ffmpeg_path, h1, h2],
    fun h2 => by by_cases hl : env.localAppData = "" <;> simp [get_ffmpeg_path, h1, h2, hl],
    fun h2 => ?_, fun h2 => ?_⟩ <;>
  · by_cases hl : env.localAppData = "" <;>
    by_cases hw : env.wingetExists = true <;>
    simp_all [get_ffmpeg_path]

/-- C5 witness: the locator's behaviour at five concrete environments —
binary on the search path; WinGet hit; no `LOCALAPPDATA`; tree root
missing; scan fault. -/
theorem get_ffmpeg_path_spec_witness :
    get_ffmpeg_path ffmpegPresent = ⟨some "ffmpeg", false⟩ ∧
    get_ffmpeg_path ffmpegWinget =
      ⟨some "C:/Users/u/AppData/Local/Microsoft/WinGet/Packages/ffmpeg.exe", true⟩ ∧
    (get_ffmpeg_path ffmpegAbsent).path = none ∧
    (get_ffmpeg_path ffmpegWingetMissing).path = none ∧
    (get_ffmpeg_path ffmpegWingetFault).path = none ∧
    (get_ffmpeg_path ffmpegWingetNoMatch).path = none := by
  refine ⟨(get_ffmpeg_path_spec ffmpegPresent).1 rfl,
    (get_ffmpeg_path_spec ffmpegWinget).2.1 _ rfl (by decide) rfl rfl,
    ((get_ffmpeg_path_spec ffmpegAbsent).2.2 rfl).1 rfl,
    ((get_ffmpeg_path_spec ffmpegWingetMissing).2.2 rfl).2.1 rfl,
    ((get_ffmpeg_path_spec ffmpegWingetFault).2.2 rfl).2.2.2 rfl,
    ((get_ffmpeg_path_spec ffmpegWingetNoMatch).2.2 rfl).2.2.1 rfl⟩

/-- C3: every `to_mp4` call that reaches the encoding step runs exactly
one command: `<bin> -y`, then `-framerate <fps> -i <pattern>` when the
input was rasterized and `-i <path>` otherwise, then
`-c:v libx264 -pix_fmt yuv420p -crf 18 -preset slow` and the filter
chain `scale=512:512:force_original_aspect_ratio=decrease` (fit within
512×512 preserving aspect ratio) followed by
`pad=912:512:(ow-iw)/2:(oh-ih)/2:black` (centred on a 912×512 black
canvas), ending with the output path. -/
theorem to_mp4_command (w : World) (in_path out_path bin_path : String)
    (hbin : (get_ffmpeg_path w.ffmpeg).path = some bin_path) :
    ((to_mp4 w in_path out_path false).commandsRun =
      [[bin_path, "-y", "-i", in_path,
        "-c:v", "libx264", "-pix_fmt", "yuv420p", "-crf", "18", "-preset", "slow",
        "-vf",
        "scale=512:512:force_original_aspect_ratio=decrease,pad=912:512:(ow-iw)/2:(oh-ih)/2:black",
        out_path]]) ∧
    (∀ temp_dir ptrn, w.mkdtemp = Except.ok temp_dir →
      (render_tgs w.rlottie temp_dir).pattern = some ptrn →
      (to_mp4 w in_path out_path true).commandsRun =
        [[bin_path, "-y", "-framerate", toString (render_tgs w.rlottie temp_dir).fps,
          "-i", ptrn,
          "-c:v", "libx264", "-pix_fmt", "yuv420p", "-crf", "18", "-preset", "slow",
          "-vf",
          "scale=512:512:force_original_aspect_ratio=decrease,pad=912:512:(ow-iw)/2:(oh-ih)/2:black",
          out_path]]) := by
  constructor
  · simp only [to_mp4, hbin]
    rfl
  · intro temp_dir ptrn hmk hp
    simp only [to_mp4, hbin, hmk, hp]
    rfl

/-- C3 witness: in the healthy world both `to_mp4` branches run the
fully spelled-out command (with `-framerate 30` and the frame pattern
in the rasterized branch). -/
theorem to_mp4_command_witness :
    (to_mp4 wBase "in.webm" "out.mp4" false).commandsRun =
      [["ffmpeg", "-y", "-i", "in.webm",
        "-c:v", "libx264", "-pix_fmt", "yuv420p", "-crf", "18", "-preset", "slow",
        "-vf",
        "scale=512:512:force_original_aspect_ratio=decrease,pad=912:512:(ow-iw)/2:(oh-ih)/2:black",
        "out.mp4"]] ∧
    (to_mp4 wBase "in.tgs" "out.mp4" true).commandsRun =
      [["ffmpeg", "-y", "-framerate", "30", "-i", "/tmp/t/frame_%04d.png",
        "-c:v", "libx264", "-pix_fmt", "yuv420p", "-crf", "18", "-preset", "slow",
        "-vf",
        "scale=512:512:force_original_aspect_ratio=decrease,pad=912:512:(ow-iw)/2:(oh-ih)/2:black",
        "out.mp4"]] := by
  refine ⟨(to_mp4_command wBase "in.webm" "out.mp4" "ffmpeg" rfl).1, ?_⟩
  have h := (to_mp4_command wBase "in.tgs" "out.mp4" "ffmpeg" rfl).2
    "/tmp/t" "/tmp/t/frame_%04d.png" rfl (by rfl)
  rw [h]
  rfl

/-- C4: every `to_gif` call that reaches the encoding step runs exactly
one command whose filter chain resamples to `fps=30`, scales to
512×512 with `flags=lanczos`, pads to a 912×512 black canvas centred
(`pad=912:512:(ow-iw)/2:(oh-ih)/2:black`) and performs
`palettegen` + `paletteuse`, and which passes `-loop 0`. -/
theorem to_gif_command (w : World) (in_path out_path bin_path : String)
    (hbin : (get_ffmpeg_path w.ffmpeg).path = some bin_path) :
    ((to_gif w in_path out_path false).commandsRun =
      [[bin_path, "-y", "-i", in_path,
        "-vf",
        "fps=30,scale=512:512:flags=lanczos,pad=912:512:(ow-iw)/2:(oh-ih)/2:black,split[s0][s1];[s0]palettegen[p];[s1][p]paletteuse",
        "-loop", "0", out_path]]) ∧
    (∀ temp_dir ptrn, w.mkdtemp = Except.ok temp_dir →
      (render_tgs w.rlottie temp_dir).pattern = some ptrn →
      (to_gif w in_path out_path true).commandsRun =
        [[bin_path, "-y", "-framerate", toString (render_tgs w.rlottie temp_dir).fps,
          "-i", ptrn,
          "-vf",
          "fps=30,scale=512:512:flags=lanczos,pad=912:512:(ow-iw)/2:(oh-ih)/2:black,split[s0][s1];[s0]palettegen[p];[s1][p]paletteuse",
          "-loop", "0", out_path]]) := by
  constructor
  · simp only [to_gif, hbin]
    rfl
  · intro temp_dir ptrn hmk hp
    simp only [to_gif, hbin, hmk, hp]
    rfl

/-- C4 witness: in the healthy world both `to_gif` branches run the
fully spelled-out command, including `-loop 0`. -/
theorem to_gif_command_witness :
    (to_gif wBase "in.webm" "out.gif" false).commandsRun =
      [["ffmpeg", "-y", "-i", "in.webm",
        "-vf",
        "fps=30,scale=512:512:flags=lanczos,pad=912:512:(ow-iw)/2:(oh-ih)/2:black,split[s0][s1];[s0]palettegen[p];[s1][p]paletteuse",
        "-loop", "0", "out.gif"]] ∧
    (to_gif wBase "in.tgs" "out.gif" true).commandsRun =
      [["ffmpeg", "-y", "-framerate", "30", "-i", "/tmp/t/frame_%04d.png",
        "-vf",
        "fps=30,scale=512:512:flags=lanczos,pad=912:512:(ow-iw)/2:(oh-ih)/2:black,split[s0][s1];[s0]palettegen[p];[s1][p]paletteuse",
        "-loop", "0", "out.gif"]] := by
  refine ⟨(to_gif_command wBase "in.webm" "out.gif" "ffmpeg" rfl).1, ?_⟩
  have h := (to_gif_command wBase "in.tgs" "out.gif" "ffmpeg" rfl).2
    "/tmp/t" "/tmp/t/frame_%04d.png" rfl (by rfl)
  rw [h]
  rfl

/-! ### Helper lemmas about the orchestrators -/

theorem to_gif_cleanup (w : World) (i o : String) (t : Bool) (td : String)
    (h : (to_gif w i o t).tempDir = some td) :
    (to_gif w i o t).cleanupAttempted = true ∧
    (to_gif w i o t).tempDirRemoved = w.rmtreeSucceeds := by
  unfold to_gif at h ⊢
  rcases h1 : (get_ffmpeg_path w.ffmpeg).path with _ | bin
  · simp [h1] at h
  · simp only [h1] at h ⊢
    cases t
    · simp at h
    · rcases h2 : w.mkdtemp with ⟨⟩ | td2
      · simp [h2] at h
      · simp only [h2] at h ⊢
        rcases h3 : (render_tgs w.rlottie td2).pattern with _ | p <;>
          simp [h3] at h ⊢

theorem to_mp4_cleanup (w : World) (i o : String) (t : Bool) (td : String)
    (h : (to_mp4 w i o t).tempDir = some td) :
    (to_mp4 w i o t).cleanupAttempted = true ∧
    (to_mp4 w i o t).tempDirRemoved = w.rmtreeSucceeds := by
  unfold to_mp4 at h ⊢
  rcases h1 : (get_ffmpeg_path w.ffmpeg).path with _ | bin
  · simp [h1] at h
  · simp only [h1] at h ⊢
    cases t
    · simp at h
    · rcases h2 : w.mkdtemp with ⟨⟩ | td2
      · simp [h2] at h
      · simp only [h2] at h ⊢
        rcases h3 : (render_tgs w.rlottie td2).pattern with _ | p <;>
          simp [h3] at h ⊢

theorem to_gif_result_rmtree (w : World) (b : Bool) (i o : String) (t : Bool) :
    (to_gif { w with rmtreeSucceeds := b } i o t).result = (to_gif w i o t).result := by
  unfold to_gif
  dsimp only
  rcases h1 : (get_ffmpeg_path w.ffmpeg).path with _ | bin
  · simp [h1]
  · simp only [h1]
    cases t
    · rfl
    · rcases h2 : w.mkdtemp with ⟨⟩ | td
      · simp [h2]
      · simp only [h2]
        rcases h3 : (render_tgs w.rlottie td).pattern with _ | p <;> simp [h3]

theorem to_mp4_result_rmtree (w : World) (b : Bool) (i o : String) (t : Bool) :
    (to_mp4 { w with rmtreeSucceeds := b } i o t).result = (to_mp4 w i o t).result := by
  unfold to_mp4
  dsimp only
  rcases h1 : (get_ffmpeg_path w.ffmpeg).path with _ | bin
  · simp [h1]
  · simp only [h1]
    cases t
    · rfl
    · rcases h2 : w.mkdtemp with ⟨⟩ | td
      · simp [h2]
      · simp only [h2]
        rcases h3 : (render_tgs w.rlottie td).pattern with _ | p <;> simp [h3]

theorem to_gif_error_iff (w : World) (i o : String) (t : Bool) :
    (to_gif w i o t).result = Except.error () ↔
      t = true ∧ (get_ffmpeg_path w.ffmpeg).path ≠ none ∧
        w.mkdtemp = Except.error () := by
  unfold to_gif
  rcases h1 : (get_ffmpeg_path w.ffmpeg).path with _ | bin
  · simp [h1]
  · simp only [h1]
    cases t
    · simp
    · rcases h2 : w.mkdtemp with ⟨⟩ | td
      · simp [h2]
      · simp only [h2]
        rcases h3 : (render_tgs w.rlottie td).pattern with _ | p <;> simp [h3]

theorem to_mp4_error_iff (w : World) (i o : String) (t : Bool) :
    (to_mp4 w i o t).result = Except.error () ↔
      t = true ∧ (get_ffmpeg_path w.ffmpeg).path ≠ none ∧
        w.mkdtemp = Except.error () := by
  unfold to_mp4
  rcases h1 : (get_ffmpeg_path w.ffmpeg).path with _ | bin
  · simp [h1]
  · simp only [h1]
    cases t
    · simp
    · rcases h2 : w.mkdtemp with ⟨⟩ | td
      · simp [h2]
      · simp only [h2]
        rcases h3 : (render_tgs w.rlottie td).pattern with _ | p <;> simp [h3]

/-- C6: after every `to_gif`/`to_mp4` call that created a temporary
directory — whatever the result (true, false at any step, or an
escaping exception) — the `finally` cleanup is reached and, when
`rmtree` succeeds, the directory tree is removed; and the value of the
removal's own success never changes the returned result. -/
theorem converters_cleanup (w : World) (i o : String) (t : Bool) :
    (∀ td, (to_gif w i o t).tempDir = some td →
      (to_gif w i o t).cleanupAttempted = true ∧
      (w.rmtreeSucceeds = true → (to_gif w i o t).tempDirRemoved = true)) ∧
    (∀ b, (to_gif { w with rmtreeSucceeds := b } i o t).result = (to_gif w i o t).result) ∧
    (∀ td, (to_mp4 w i o t).tempDir = some td →
      (to_mp4 w i o t).cleanupAttempted = true ∧
      (w.rmtreeSucceeds = true → (to_mp4 w i o t).tempDirRemoved = true)) ∧
    (∀ b, (to_mp4 { w with rmtreeSucceeds := b } i o t).result = (to_mp4 w i o t).result) := by
  refine ⟨fun td h => ?_, fun b => to_gif_result_rmtree w b i o t,
    fun td h => ?_, fun b => to_mp4_result_rmtree w b i o t⟩
  · obtain ⟨h1, h2⟩ := to_gif_cleanup w i o t td h
    exact ⟨h1, fun hr => by rw [h2, hr]⟩
  · obtain ⟨h1, h2⟩ := to_mp4_cleanup w i o t td h
    exact ⟨h1, fun hr => by rw [h2, hr]⟩

/-- C6 witness: in the healthy world the rasterized `to_gif`/`to_mp4`
calls create `/tmp/t`, attempt cleanup, remove it, and a failing
`rmtree` leaves their results unchanged. -/
theorem converters_cleanup_witness :
    (to_gif wBase "in.tgs" "out.gif" true).cleanupAttempted = true ∧
    (to_gif wBase "in.tgs" "out.gif" true).tempDirRemoved = true ∧
    (to_gif { wBase with rmtreeSucceeds := false } "in.tgs" "out.gif" true).result =
      (to_gif wBase "in.tgs" "out.gif" true).result ∧
    (to_mp4 wBase "in.tgs" "out.mp4" true).cleanupAttempted = true ∧
    (to_mp4 wBase "in.tgs" "out.mp4" true).tempDirRemoved = true ∧
    (to_mp4 { wBase with rmtreeSucceeds := false } "in.tgs" "out.mp4" true).result =
      (to_mp4 wBase "in.tgs" "out.mp4" true).result := by
  have hG := converters_cleanup wBase "in.tgs" "out.gif" true
  have hM := converters_cleanup wBase "in.tgs" "out.mp4" true
  exact ⟨(hG.1 "/tmp/t" rfl).1, (hG.1 "/tmp/t" rfl).2 rfl, hG.2.1 false,
    (hM.2.2.1 "/tmp/t" rfl).1, (hM.2.2.1 "/tmp/t" rfl).2 rfl, hM.2.2.2 false⟩

/-- C8: when the dependency locator yields no binary, `to_gif` and
`to_mp4` return `false` immediately: no temporary directory, no
rasterizer call, no command built or run, no frame files written. -/
theorem converters_no_ffmpeg (w : World) (i o : String) (t : Bool)
    (h : (get_ffmpeg_path w.ffmpeg).path = none) :
    to_gif w i o t = ⟨.ok false, none, false, false, false, [], []⟩ ∧
    to_mp4 w i o t = ⟨.ok false, none, false, false, false, [], []⟩ :=
  ⟨by unfold to_gif; rw [h], by unfold to_mp4; rw [h]⟩

/-- C8 witness: the world with ffmpeg absent from the search path and
from the (missing) WinGet tree. -/
theorem converters_no_ffmpeg_witness :
    to_gif wNoFfmpeg "in.tgs" "out.gif" true =
      ⟨.ok false, none, false, false, false, [], []⟩ ∧
    to_mp4 wNoFfmpeg "in.tgs" "out.mp4" true =
      ⟨.ok false, none, false, false, false, [], []⟩ :=
  ⟨(converters_no_ffmpeg wNoFfmpeg "in.tgs" "out.gif" true rfl).1,
   (converters_no_ffmpeg wNoFfmpeg "in.tgs" "out.mp4" true rfl).2⟩

/-- C9 counterexample: in a world where ffmpeg is present but
`tempfile.mkdtemp()` raises, both `to_gif` and `to_mp4` on a
vector-animation input let the exception escape to the caller instead
of returning a boolean — the `try` block has only a `finally`, no
`except`. -/
theorem converters_raise_on_mkdtemp_fault :
    (to_gif wMkdtempFail "in.tgs" "out.gif" true).result = Except.error () ∧
    (to_mp4 wMkdtempFail "in.tgs" "out.mp4" true).result = Except.error () :=
  ⟨rfl, rfl⟩

/-- C9 (amended): `to_gif` and `to_mp4` return a boolean and propagate
no exception in every case except exactly one: the encoder binary was
found, the input is a vector animation, and `tempfile.mkdtemp()` fails
— that exception escapes to the caller.  Faults in dependency lookup,
rasterization, and encoder launch or exit are caught at their origin
and converted into the boolean result. -/
theorem converters_total_unless_mkdtemp (w : World) (i o : String) (t : Bool) :
    ((to_gif w i o t).result = Except.error () ↔
      t = true ∧ (get_ffmpeg_path w.ffmpeg).path ≠ none ∧
        w.mkdtemp = Except.error ()) ∧
    ((to_mp4 w i o t).result = Except.error () ↔
      t = true ∧ (get_ffmpeg_path w.ffmpeg).path ≠ none ∧
        w.mkdtemp = Except.error ()) :=
  ⟨to_gif_error_iff w i o t, to_mp4_error_iff w i o t⟩

/-- C10: with `is_tgs = false`, `to_gif` and `to_mp4` never create a
temporary directory, never invoke the rasterizer, write no frame
files, skip the cleanup, and run at most one command — the encoder
invocation whose input is the caller's path and whose output argument
is the caller's output path. -/
theorem converters_no_tgs_no_tempdir (w : World) (i o : String) :
    (to_gif w i o false).tempDir = none ∧
    (to_gif w i o false).renderInvoked = false ∧
    (to_gif w i o false).framesWritten = [] ∧
    (to_gif w i o false).cleanupAttempted = false ∧
    ((to_gif w i o false).commandsRun = [] ∨ ∃ bin,
      (to_gif w i o false).commandsRun =
        [[bin, "-y", "-i", i, "-vf", gif_vf, "-loop", "0", o]]) ∧
    (to_mp4 w i o false).tempDir = none ∧
    (to_mp4 w i o false).renderInvoked = false ∧
    (to_mp4 w i o false).framesWritten = [] ∧
    (to_mp4 w i o false).cleanupAttempted = false ∧
    ((to_mp4 w i o false).commandsRun = [] ∨ ∃ bin,
      (to_mp4 w i o false).commandsRun =
        [[bin, "-y", "-i", i] ++ mp4_codec_args ++ ["-vf", mp4_vf, o]]) := by
  unfold to_gif to_mp4
  rcases h1 : (get_ffmpeg_path w.ffmpeg).path with _ | bin
  · simp [h1]
  · simp only [h1]
    exact ⟨rfl, rfl, rfl, rfl, Or.inr ⟨bin, rfl⟩, rfl, rfl, rfl, rfl, Or.inr ⟨bin, rfl⟩⟩
